import Mathlib

/-!
Verification development for the gemini-media-agent repository (src/main.py).

The program is a four-stage LLM pipeline (Analysis, Planning, Execution, QC)
with two shell tools. External effects (the subprocess module, the platform
module, the Gemini agent runtime, standard input) are modelled as explicit
oracle inputs; the Python functions become total Lean functions over those
oracles, with `Option` capturing an exception escaping a function boundary.
-/

namespace MediaAgent

/-! ## Python string helpers

`pyIsSpace` and `pySplit` model Python `str.split()` with no arguments:
split on runs of whitespace and discard empty fields. -/

def pyIsSpace (c : Char) : Bool :=
  c == ' ' || c == '\t' || c == '\n' || c == '\r' || c == '\x0b' || c == '\x0c'

def pySplitAux : List Char → List Char → List String
  | [], acc => if acc.isEmpty then [] else [String.mk acc.reverse]
  | c :: cs, acc =>
    if pyIsSpace c then
      if acc.isEmpty then pySplitAux cs [] else String.mk acc.reverse :: pySplitAux cs []
    else
      pySplitAux cs (c :: acc)

def pySplit (s : String) : List String := pySplitAux s.data []

/-- Models the Python expression `command.split()[0] if command else ''` from the
FileNotFoundError handler of execute_terminal_command: `none` models an
IndexError escaping (indexing an empty list), `some tok` a successful lookup. -/
def firstToken (command : String) : Option String :=
  if command = "" then some "" else (pySplit command).head?

/-! ## JSON serialization (Python json.dumps for flat objects)

The source only ever serializes a flat dict whose values are strings or ints,
so the model covers exactly that: `renderObj` mimics `json.dumps` with its
default separators and `ensure_ascii=True` escaping. -/

def hexDigit (n : Nat) : Char :=
  if n < 10 then Char.ofNat (48 + n) else Char.ofNat (87 + n)

def hex4 (n : Nat) : String :=
  String.mk [hexDigit (n / 4096 % 16), hexDigit (n / 256 % 16), hexDigit (n / 16 % 16), hexDigit (n % 16)]

def pyJsonEscapeChar (c : Char) : String :=
  if c == '"' then "\\\"" else
  if c == '\\' then "\\\\" else
  if c == '\n' then "\\n" else
  if c == '\r' then "\\r" else
  if c == '\t' then "\\t" else
  if c == '\x08' then "\\b" else
  if c == '\x0c' then "\\f" else
  if c.toNat < 32 then "\\u" ++ hex4 c.toNat else
  if c.toNat ≤ 126 then String.mk [c] else
  if c.toNat ≤ 65535 then "\\u" ++ hex4 c.toNat else
  "\\u" ++ hex4 (55296 + (c.toNat - 65536) / 1024) ++ "\\u" ++ hex4 (56320 + (c.toNat - 65536) % 1024)

def pyJsonEscape (s : String) : String :=
  s.data.foldl (fun acc c => acc ++ pyJsonEscapeChar c) ""

inductive JVal where
  | s : String → JVal
  | i : Int → JVal

def JVal.render : JVal → String
  | .s v => "\"" ++ pyJsonEscape v ++ "\""
  | .i n => toString n

def renderObj (fields : List (String × JVal)) : String :=
  "\x7b" ++ String.intercalate ", "
    (fields.map (fun kv => "\"" ++ pyJsonEscape kv.1 ++ "\": " ++ kv.2.render)) ++ "\x7d"

def objKeys (fields : List (String × JVal)) : List String := fields.map Prod.fst

/-- The exact dict shape serialized by execute_terminal_command. -/
def commandResultJson (out err : String) (rc : Int) : String :=
  renderObj [("stdout", JVal.s out), ("stderr", JVal.s err), ("return_code", JVal.i rc)]

/-! ## Shell tool adapter -/

/-- Oracle for the behaviour of `subprocess.run(command, shell=True, ...)`:
it either completes with captured streams and a return code, raises
FileNotFoundError (shell or command not found), or raises some other
exception carrying a message. -/
inductive RunOutcome where
  | completed (stdout stderr : String) (returncode : Int)
  | fileNotFound
  | otherError (msg : String)

def fileNotFoundMsg (tok : String) : String :=
  "Error: The shell or command \x27" ++ tok ++ "\x27 was not found."

def otherErrorMsg (command msg : String) : String :=
  "An unexpected error occurred while executing \x27" ++ command ++ "\x27: " ++ msg

/-- Model of execute_terminal_command from src/main.py. The `outcome` argument
is the subprocess oracle. The result is `some jsonString` when the Python
function returns, `none` when an exception escapes its boundary (the only
such possibility being the IndexError from `command.split()[0]` inside the
FileNotFoundError handler, which the surrounding try does not catch). -/
def execute_terminal_command (command : String) (outcome : RunOutcome) : Option String :=
  match outcome with
  | .completed out err rc => some (commandResultJson out err rc)
  | .fileNotFound =>
    match firstToken command with
    | some tok => some (commandResultJson "" (fileNotFoundMsg tok) 127)
    | none => none
  | .otherError e => some (commandResultJson "" (otherErrorMsg command e) (-1))

/-! ## get_current_os -/

/-- Host operating system as seen by Python platform.system: the recognized
names, or an undetermined host (for which platform.system returns ""). -/
inductive HostOS where
  | linux | windows | darwin | java | unknown
deriving DecidableEq

/-- Models platform.system() per its documentation: returns the system name,
e.g. Linux, Windows, Darwin, Java; an empty string if undetermined. -/
def platformSystem : HostOS → String
  | .linux => "Linux"
  | .windows => "Windows"
  | .darwin => "Darwin"
  | .java => "Java"
  | .unknown => ""

/-- Model of get_current_os from src/main.py: a bare pass-through of
platform.system(), with no error handling of its own. -/
def get_current_os (host : HostOS) : String := platformSystem host

/-! ## String non-emptiness helpers -/

theorem ne_empty_of_data_ne_nil (a : String) (h : a.data ≠ []) : a ≠ "" := by
  intro heq
  apply h
  rw [heq]

theorem data_append (a b : String) : (a ++ b).data = a.data ++ b.data := by
  cases a; cases b; rfl

theorem data_append_ne_nil_left (a b : String) (h : a.data ≠ []) : (a ++ b).data ≠ [] := by
  rw [data_append]
  intro hx
  exact h (List.append_eq_nil.mp hx).1

theorem fileNotFoundMsg_ne_empty (tok : String) : fileNotFoundMsg tok ≠ "" := by
  apply ne_empty_of_data_ne_nil
  apply data_append_ne_nil_left
  apply data_append_ne_nil_left
  decide

theorem otherErrorMsg_ne_empty (command msg : String) : otherErrorMsg command msg ≠ "" := by
  apply ne_empty_of_data_ne_nil
  apply data_append_ne_nil_left
  apply data_append_ne_nil_left
  apply data_append_ne_nil_left
  decide

/-! ## Transcript data model -/

structure Message where
  role : String
  content : String
deriving DecidableEq

abbrev Transcript := List Message

def userMsg (content : String) : Message := { role := "user", content := content }

/-! ## Stage output schemas (the pydantic models from src/main.py) -/

structure RequirementAnalysis where
  requirement_number : Int
  requirement_specification : String
  relevant_available_files : List String
  requirement_satisfied_already : Bool
  possible_to_satisfy_requirement : Option Bool
  plan_of_action : Option String
  reasoning : String
deriving DecidableEq

structure AllRequirementsAnalysis where
  all_requirements_analysis : List RequirementAnalysis
  can_satisfy_all_requirements : Bool
  any_user_input_required : Bool
  question_to_user : Option String
deriving DecidableEq

structure PlannerStep where
  step_number : Int
  description : String
  terminal_command : String
  reasoning : String
deriving DecidableEq

structure AllPlannerSteps where
  all_planner_steps : List PlannerStep
  can_satisfy_all_requirements : Bool
  any_user_input_required : Bool
  question_to_user : Option String
deriving DecidableEq

inductive ExecutionStatus where
  | Success | Failure
deriving DecidableEq

structure ExecutorStep where
  step_number : Int
  terminal_command : String
  execution_status : ExecutionStatus
  command_changed : Bool
  updated_command : Option String
  challenges_faced : Option String
deriving DecidableEq

structure AllExecutorSteps where
  all_executor_steps : List ExecutorStep
  can_satisfy_all_requirements : Bool
  any_user_input_required : Bool
  question_to_user : Option String
deriving DecidableEq

structure QCStep where
  requirement_number : Int
  requirement_specification : String
  relevant_available_files : List String
  requirement_satisfied_successfully : Bool
  reasoning : String
deriving DecidableEq

structure AllQCSteps where
  all_qc_steps : List QCStep
  all_requirements_satisfied : Bool
  any_user_input_required : Bool
  question_to_user : Option String
deriving DecidableEq

/-- The shared clarification sub-contract carried by each of the four stage
output containers: the required flag plus the optional question text. -/
class HasClarification (α : Type) where
  any_user_input_required : α → Bool
  question_to_user : α → Option String

instance : HasClarification AllRequirementsAnalysis :=
  ⟨fun x => x.any_user_input_required, fun x => x.question_to_user⟩

instance : HasClarification AllPlannerSteps :=
  ⟨fun x => x.any_user_input_required, fun x => x.question_to_user⟩

instance : HasClarification AllExecutorSteps :=
  ⟨fun x => x.any_user_input_required, fun x => x.question_to_user⟩

instance : HasClarification AllQCSteps :=
  ⟨fun x => x.any_user_input_required, fun x => x.question_to_user⟩

/-! ## Interactive step runner (process_step)

One call to `Runner.run_streamed(agent, messages)` is modelled by an oracle
`invoke : Transcript → AgentResponse α`: the runtime appends some generated
items to the input transcript (`result.to_input_list()` is the input list
followed by the new items, per the agent-runtime contract) and produces a
structured final output of the agent's output schema. Standard input is the
oracle `stdin : Nat → String`, indexed by a cursor counting lines read so
far. Since the Python while-loop is unbounded, the model takes a fuel
parameter; `none` means the loop did not finish within the given fuel. -/

structure AgentResponse (α : Type) where
  newItems : List Message
  finalOutput : α

structure RunResult (α : Type) where
  finalOutput : α
  toInputList : Transcript
  lastAgentName : String
  printedQuestions : List String

/-- Python str() of an optional string, as used when printing
question_to_user (None prints as "None"). -/
def optText : Option String → String
  | some s => s
  | none => "None"

/-- The clarification line printed by process_step:
print(f"\n\x7bresult.last_agent.name\x7d >> \x7bresult.final_output.question_to_user\x7d"). -/
def questionLine (name : String) (q : Option String) : String :=
  "\n" ++ name ++ " >> " ++ optText q

/-- Model of process_step from src/main.py. Returns the runner result
(structured output, updated transcript, agent name, printed clarification
lines) together with the stdin cursor after the call. -/
def process_step {α : Type} [HasClarification α] (invoke : Transcript → AgentResponse α)
    (stdin : Nat → String) (name : String) : Nat → Transcript → Nat → Option (RunResult α × Nat)
  | 0, _, _ => none
  | fuel + 1, messages, cursor =>
    if HasClarification.any_user_input_required (invoke messages).finalOutput then
      Option.map
        (fun rc =>
          ({ rc.1 with
             printedQuestions :=
               questionLine name (HasClarification.question_to_user (invoke messages).finalOutput)
                 :: rc.1.printedQuestions }, rc.2))
        (process_step invoke stdin name fuel
          ((messages ++ (invoke messages).newItems) ++ [userMsg (stdin cursor)]) (cursor + 1))
    else
      some ({ finalOutput := (invoke messages).finalOutput,
              toInputList := messages ++ (invoke messages).newItems,
              lastAgentName := name,
              printedQuestions := [] }, cursor)

/-! ## Clarification-loop iteration structure (for the termination analysis) -/

/-- One clarification round-trip: the transcript grows by the runtime's new
items plus one user message read from stdin, and the stdin cursor advances. -/
def clarifyNext {α : Type} [HasClarification α] (invoke : Transcript → AgentResponse α)
    (stdin : Nat → String) (st : Transcript × Nat) : Transcript × Nat :=
  ((st.1 ++ (invoke st.1).newItems) ++ [userMsg (stdin st.2)], st.2 + 1)

def clarifyIter {α : Type} [HasClarification α] (invoke : Transcript → AgentResponse α)
    (stdin : Nat → String) : Nat → Transcript × Nat → Transcript × Nat
  | 0, st => st
  | k + 1, st => clarifyIter invoke stdin k (clarifyNext invoke stdin st)

/-- Whether the invocation at the k-th clarification round still asks for
user input. -/
def asksAt {α : Type} [HasClarification α] (invoke : Transcript → AgentResponse α)
    (stdin : Nat → String) (k : Nat) (st : Transcript × Nat) : Bool :=
  HasClarification.any_user_input_required ((invoke (clarifyIter invoke stdin k st).1).finalOutput)

/-! ## Agent role configurations (instructions from src/main.py) -/

def ANALYZER_INSTRUCTIONS : String :=
  "\nYour goal is to thoroughly understand the client requirements and decide if they can be achieved or not with the available input files.\nYou are known for your exceptional ability to clearly understand the client\x27s requirements and decide if those targets are achieveable using the available files and tools.\nYou will raise a flag if you find that we do not have the necessary files or tools to deliver the client\x27s expectations.\n"

def PLANNER_INSTRUCTIONS : String :=
  "\nYou are an expert task planner.\nYou are known for your exceptional ability to understand the client requirements, the available inputs, the desired output and the available tools in hand to devise a detailed step-by-step plan.\nClearly understand the analysis client requirements, the analysis performed by the Client Requirements Analyst and the available input files and set out a detailed step by step plan to achieve the desired outcome.\n"

def EXECUTOR_INSTRUCTIONS : String :=
  "\nYou are an expert task executor. You are known for your exceptional ability to understand the given sequence of steps and execute them successfully using the available tools.\nExecute the sequence of steps provided to you.\n"

def QC_INSTRUCTIONS : String :=
  "\nYou are an expert quality checker. You are known for your exceptional ability to understand the given client requirements and check if they have been satisfied or not.\nThoroughly understand the client requirements, compare it available files and check if all the requirements have been met or not.\nYou will raise a flag if you find that the client\x27s expectations are not successfully met.\n"

structure AgentConfig where
  name : String
  instructions : String

def analyzer_agent : AgentConfig :=
  { name := "Client Requirements Analyst", instructions := ANALYZER_INSTRUCTIONS }

def planner_agent : AgentConfig :=
  { name := "Senior Media Post-Production Task Planner", instructions := PLANNER_INSTRUCTIONS }

def executor_agent : AgentConfig :=
  { name := "Senior Media Post-Production Client Delivery Expert", instructions := EXECUTOR_INSTRUCTIONS }

def qc_agent : AgentConfig :=
  { name := "Senior Media Post-Production Quality Checker", instructions := QC_INSTRUCTIONS }

/-! ## Stage prompts (from main in src/main.py) -/

def ANALYZER_PROMPT : String :=
  "\nOVERALL WORKFLOW: Analysis (We are here now) --> Task Planning --> Execution --> Quality Check\nINSTRUCTIONS:\nWe need to deliver the media package as per the specifications mentioned in the client\x27s requirements document.\nAnalyse the client requirements thoroughly and compare it to the available input files.\nDecide if it is possible to achieve the expectations using the available input files and tools.\n\nAVAILABLE TOOLS: You can use FFMPEG, FFPROBE, ImageMagick and other terminal commands as required.\nWORKING FOLDER: ./assets (All input files and requirements are in this folder)\nIMPORTANT: You are only an analyst. Do not perform any actions or modify any files.\nASK QUESTIONS: If you need user input, please ask.\n"

def PLANNER_PROMPT : String :=
  "\nOVERALL WORKFLOW: Analysis --> Task Planning (We are here now) --> Execution --> Quality Check\nINSTRUCTIONS:\nCreate a detailed step-by-step plan to achieve the desired output based on the previous analysis.\nAll tasks like transformation, extraction, renaming etc should be done in a separate sub-directory called \x27temp\x27.\nThe \x27temp\x27 folder should be created in the \x27./assets\x27 folder. Creating this sub-directory should be the first step if it doesn\x27t exist.\nEach terminal command should be complete and self-contained.\n\nCONTEXT: The output of the previous \x27Analysis\x27 step is attached above.\nAVAILABLE TOOLS: You can use FFMPEG, FFPROBE, ImageMagick and other terminal commands.\nWORKING FOLDER: ./assets\nIMPORTANT: You are only a task planner. The actual execution will be performed later.\n"

def EXECUTOR_PROMPT : String :=
  "\nOVERALL WORKFLOW: Analysis --> Task Planning --> Execution (We are here now) --> Quality Check\nINSTRUCTIONS:\nYou have been provided with a step-by-step plan. Execute the plan and record your observations.\nIf any step fails, analyse the reason, make necessary modifications to the command if needed, and try again until it succeeds.\n\nCONTEXT: The output of the previous \x27Analysis\x27 and \x27Task Planning\x27 steps are attached.\nAVAILABLE TOOLS: You can use FFMPEG, FFPROBE, ImageMagick and other terminal commands.\nWORKING FOLDER: ./assets\nIMPORTANT: Keep task executions safe and localized to the working folder.\n"

def QC_PROMPT : String :=
  "\nOVERALL WORKFLOW: Analysis --> Task Planning --> Execution --> Quality Check (We are here now)\nINSTRUCTIONS:\nCheck if the available files (input files and generated files in the temp folder) satisfy the client\x27s requirements.\nYou are allowed to make minor modifications if needed (like renaming files or cleaning up unnecessary files in the temp directory).\n\nCONTEXT: The outputs of \x27Analysis\x27, \x27Task Planning\x27 and \x27Execution\x27 are attached.\nAVAILABLE TOOLS: You can use FFMPEG, FFPROBE, ImageMagick and other terminal commands.\nWORKING FOLDER: ./assets\nIMPORTANT: Keep task executions safe and localized to the working folder.\n"

/-! ## Pipeline orchestrator (main) -/

/-- Oracle environment for one run: the agent runtime's behaviour for each of
the four roles, plus standard input. -/
structure Env where
  analyzer : Transcript → AgentResponse AllRequirementsAnalysis
  planner : Transcript → AgentResponse AllPlannerSteps
  executor : Transcript → AgentResponse AllExecutorSteps
  qc : Transcript → AgentResponse AllQCSteps
  stdin : Nat → String

inductive StageId where
  | analysis | planning | execution | qualityCheck
deriving DecidableEq, BEq

structure PipelineRun where
  stageOrder : List StageId
  analysisInput : Transcript
  analysisResult : RunResult AllRequirementsAnalysis
  planningInput : Transcript
  planningResult : RunResult AllPlannerSteps
  executionInput : Transcript
  executionResult : RunResult AllExecutorSteps
  qcInput : Transcript
  qcResult : RunResult AllQCSteps
  log : List String

def WORKFLOW_COMPLETE_BANNER : String := "----- WORKFLOW COMPLETE -----"

/-- Model of main from src/main.py: the four stages in fixed order, each
seeded by the previous stage's to_input_list() plus the stage prompt as a
user message. The structured dumps printed between the banners are
observability only and are omitted from the modelled log. `none` means some
stage's clarification loop did not finish within the given fuel. -/
def main (env : Env) (fuel : Nat) : Option PipelineRun :=
  (process_step env.analyzer env.stdin analyzer_agent.name fuel [userMsg ANALYZER_PROMPT] 0).bind
    (fun s1 =>
  (process_step env.planner env.stdin planner_agent.name fuel
      (s1.1.toInputList ++ [userMsg PLANNER_PROMPT]) s1.2).bind (fun s2 =>
  (process_step env.executor env.stdin executor_agent.name fuel
      (s2.1.toInputList ++ [userMsg EXECUTOR_PROMPT]) s2.2).bind (fun s3 =>
  (process_step env.qc env.stdin qc_agent.name fuel
      (s3.1.toInputList ++ [userMsg QC_PROMPT]) s3.2).map (fun s4 =>
    { stageOrder := [StageId.analysis, StageId.planning, StageId.execution, StageId.qualityCheck]
      analysisInput := [userMsg ANALYZER_PROMPT]
      analysisResult := s1.1
      planningInput := s1.1.toInputList ++ [userMsg PLANNER_PROMPT]
      planningResult := s2.1
      executionInput := s2.1.toInputList ++ [userMsg EXECUTOR_PROMPT]
      executionResult := s3.1
      qcInput := s3.1.toInputList ++ [userMsg QC_PROMPT]
      qcResult := s4.1
      log := ["----- STARTING ANALYSIS -----", "----- STARTING PLANNING -----",
              "----- STARTING EXECUTION -----", "----- STARTING QUALITY CHECK -----",
              WORKFLOW_COMPLETE_BANNER] }))))

/-! ## Startup configuration (module level in src/main.py) -/

/-- Oracle for genai.configure(api_key=os.getenv("GEMINI_API_KEY")): either
it returns normally, or it raises an exception with a message (the library's
signal of a missing or invalid credential). -/
inductive ConfigureOutcome where
  | ok
  | raises (msg : String)

/-- The diagnostic printed by the module-level except handler. -/
def configureDiagnostic (e : String) : String :=
  "Error configuring Gemini API: " ++ e ++ "\nPlease ensure your GEMINI_API_KEY is set in the .env file."

structure ProgramResult where
  exitCode : Option Nat
  diagnostic : Option String
  pipeline : Option PipelineRun

/-- Model of the whole process: module-level configure (with its try/except
and sys.exit(1)) happens before asyncio.run(main()); on a configure
exception the process exits with status 1 and no stage ever runs. -/
def program (cfg : ConfigureOutcome) (env : Env) (fuel : Nat) : ProgramResult :=
  match cfg with
  | .raises e =>
    { exitCode := some 1, diagnostic := some (configureDiagnostic e), pipeline := none }
  | .ok =>
    { exitCode := none, diagnostic := none, pipeline := main env fuel }

/-! ## Claim theorems: shell tool adapter, OS query, startup -/

/-- C1: the claim says execute_terminal_command never raises past its own
boundary for every command string. The code violates this: for the
whitespace-only command " " under the FileNotFoundError branch,
command.split() is empty, so command.split()[0] raises IndexError inside the
except handler (which the adjacent except Exception clause of the same try
does not catch), and the exception escapes instead of a structured result
with return_code 127. This theorem evaluates the model at that failing
input. -/
theorem C1_whitespace_command_escapes :
    pySplit " " = [] ∧ firstToken " " = none ∧
    execute_terminal_command " " RunOutcome.fileNotFound = none :=
  ⟨rfl, rfl, rfl⟩

/-- C9: the empty command string is safe: the guard (if command else) makes
the command-not-found branch use the empty name instead of indexing an empty
split, so no IndexError occurs and a structured result is returned for every
subprocess outcome. -/
theorem C9_empty_command_safe :
    firstToken "" = some "" ∧
    execute_terminal_command "" RunOutcome.fileNotFound =
      some (commandResultJson "" (fileNotFoundMsg "") 127) ∧
    ∀ outcome : RunOutcome, (execute_terminal_command "" outcome).isSome = true := by
  refine ⟨rfl, rfl, ?_⟩
  intro outcome
  cases outcome <;> rfl

/-- C10: whenever execute_terminal_command returns, the returned value is the
JSON serialization of an object with exactly the keys stdout, stderr and
return_code (in that order), and on both error branches the stdout field is
empty and the stderr field is non-empty. -/
theorem C10_json_result_shape (command : String) (outcome : RunOutcome) (s : String)
    (h : execute_terminal_command command outcome = some s) :
    ∃ out err rc,
      s = renderObj [("stdout", JVal.s out), ("stderr", JVal.s err), ("return_code", JVal.i rc)] ∧
      objKeys [("stdout", JVal.s out), ("stderr", JVal.s err), ("return_code", JVal.i rc)] =
        ["stdout", "stderr", "return_code"] ∧
      ((outcome = RunOutcome.fileNotFound ∨ ∃ e, outcome = RunOutcome.otherError e) →
        out = "" ∧ err ≠ "") := by
  cases outcome with
  | completed out err rc =>
    refine ⟨out, err, rc, (Option.some.inj h).symm, rfl, ?_⟩
    rintro (h1 | ⟨e, h1⟩) <;> exact RunOutcome.noConfusion h1
  | fileNotFound =>
    cases hft : firstToken command with
    | none =>
      have hx : execute_terminal_command command RunOutcome.fileNotFound = none := by
        simp [execute_terminal_command, hft]
      rw [hx] at h
      exact Option.noConfusion h
    | some tok =>
      simp only [execute_terminal_command, hft, Option.some.injEq] at h
      exact ⟨"", fileNotFoundMsg tok, 127, h.symm, rfl,
        fun _ => ⟨rfl, fileNotFoundMsg_ne_empty tok⟩⟩
  | otherError e =>
    exact ⟨"", otherErrorMsg command e, -1, (Option.some.inj h).symm, rfl,
      fun _ => ⟨rfl, otherErrorMsg_ne_empty command e⟩⟩

theorem C10_json_result_shape_witness :
    ∃ out err rc,
      "\x7b\"stdout\": \"hi\\n\", \"stderr\": \"\", \"return_code\": 0\x7d" =
        renderObj [("stdout", JVal.s out), ("stderr", JVal.s err), ("return_code", JVal.i rc)] ∧
      objKeys [("stdout", JVal.s out), ("stderr", JVal.s err), ("return_code", JVal.i rc)] =
        ["stdout", "stderr", "return_code"] ∧
      ((RunOutcome.completed "hi\n" "" 0 = RunOutcome.fileNotFound ∨
          ∃ e, RunOutcome.completed "hi\n" "" 0 = RunOutcome.otherError e) →
        out = "" ∧ err ≠ "") :=
  C10_json_result_shape "echo hi" (RunOutcome.completed "hi\n" "" 0)
    "\x7b\"stdout\": \"hi\\n\", \"stderr\": \"\", \"return_code\": 0\x7d" rfl

/-- C5: get_current_os is a pure pass-through of the platform oracle with no
error path of its own; on every supported host it returns one of the
recognized platform names and never the empty string. -/
theorem C5_get_current_os_names :
    (∀ host : HostOS, get_current_os host = platformSystem host) ∧
    (∀ host : HostOS, host ≠ HostOS.unknown →
      (get_current_os host = "Linux" ∨ get_current_os host = "Windows" ∨
        get_current_os host = "Darwin" ∨ get_current_os host = "Java") ∧
      get_current_os host ≠ "") := by
  refine ⟨fun _ => rfl, ?_⟩
  intro host h
  cases host with
  | linux => exact ⟨Or.inl rfl, by decide⟩
  | windows => exact ⟨Or.inr (Or.inl rfl), by decide⟩
  | darwin => exact ⟨Or.inr (Or.inr (Or.inl rfl)), by decide⟩
  | java => exact ⟨Or.inr (Or.inr (Or.inr rfl)), by decide⟩
  | unknown => exact absurd rfl h

theorem C5_get_current_os_names_witness :
    (get_current_os HostOS.linux = "Linux" ∨ get_current_os HostOS.linux = "Windows" ∨
      get_current_os HostOS.linux = "Darwin" ∨ get_current_os HostOS.linux = "Java") ∧
    get_current_os HostOS.linux ≠ "" :=
  C5_get_current_os_names.2 HostOS.linux (by decide)

/-- C4: if configuring the Gemini API credential raises at startup, the
process exits immediately with status 1 (non-zero) and a non-empty
diagnostic, and no pipeline stage ever runs. -/
theorem C4_config_failure_exits (e : String) (env : Env) (fuel : Nat) :
    program (ConfigureOutcome.raises e) env fuel =
      { exitCode := some 1, diagnostic := some (configureDiagnostic e), pipeline := none } ∧
    (1 : Nat) ≠ 0 ∧ configureDiagnostic e ≠ "" := by
  refine ⟨rfl, by decide, ?_⟩
  apply ne_empty_of_data_ne_nil
  apply data_append_ne_nil_left
  apply data_append_ne_nil_left
  decide

/-! ## Runner lemmas -/

theorem process_step_succ_ask {α : Type} [HasClarification α]
    (invoke : Transcript → AgentResponse α) (stdin : Nat → String) (name : String)
    (fuel : Nat) (messages : Transcript) (cursor : Nat)
    (h : HasClarification.any_user_input_required (invoke messages).finalOutput = true) :
    process_step invoke stdin name (fuel + 1) messages cursor =
      Option.map
        (fun rc =>
          ({ rc.1 with
             printedQuestions :=
               questionLine name (HasClarification.question_to_user (invoke messages).finalOutput)
                 :: rc.1.printedQuestions }, rc.2))
        (process_step invoke stdin name fuel
          ((messages ++ (invoke messages).newItems) ++ [userMsg (stdin cursor)]) (cursor + 1)) := by
  simp [process_step, h]

theorem process_step_succ_done {α : Type} [HasClarification α]
    (invoke : Transcript → AgentResponse α) (stdin : Nat → String) (name : String)
    (fuel : Nat) (messages : Transcript) (cursor : Nat)
    (h : HasClarification.any_user_input_required (invoke messages).finalOutput = false) :
    process_step invoke stdin name (fuel + 1) messages cursor =
      some ({ finalOutput := (invoke messages).finalOutput,
              toInputList := messages ++ (invoke messages).newItems,
              lastAgentName := name,
              printedQuestions := [] }, cursor) := by
  simp [process_step, h]

theorem process_step_flag_false {α : Type} [HasClarification α]
    (invoke : Transcript → AgentResponse α) (stdin : Nat → String) (name : String) :
    ∀ (fuel : Nat) (messages : Transcript) (cursor : Nat) (r : RunResult α) (c : Nat),
      process_step invoke stdin name fuel messages cursor = some (r, c) →
      HasClarification.any_user_input_required r.finalOutput = false := by
  intro fuel
  induction fuel with
  | zero =>
    intro messages cursor r c h
    exact Option.noConfusion h
  | succ n ih =>
    intro messages cursor r c h
    cases hflag : HasClarification.any_user_input_required (invoke messages).finalOutput with
    | true =>
      rw [process_step_succ_ask invoke stdin name n messages cursor hflag,
        Option.map_eq_some'] at h
      obtain ⟨a, ha, hfa⟩ := h
      cases a with
      | mk r' c' =>
        cases hfa
        exact ih _ _ r' c' ha
    | false =>
      rw [process_step_succ_done invoke stdin name n messages cursor hflag] at h
      have h2 := Option.some.inj h
      cases h2
      exact hflag

theorem process_step_isSome_iff {α : Type} [HasClarification α]
    (invoke : Transcript → AgentResponse α) (stdin : Nat → String) (name : String) :
    ∀ (fuel : Nat) (messages : Transcript) (cursor : Nat),
      (process_step invoke stdin name fuel messages cursor).isSome = true ↔
        ∃ k, k < fuel ∧ asksAt invoke stdin k (messages, cursor) = false := by
  intro fuel
  induction fuel with
  | zero =>
    intro messages cursor
    constructor
    · intro h
      exact Bool.noConfusion h
    · rintro ⟨k, hk, _⟩
      exact absurd hk (Nat.not_lt_zero k)
  | succ n ih =>
    intro messages cursor
    cases hflag : HasClarification.any_user_input_required (invoke messages).finalOutput with
    | false =>
      rw [process_step_succ_done invoke stdin name n messages cursor hflag]
      constructor
      · intro _
        exact ⟨0, Nat.succ_pos n, hflag⟩
      · intro _
        rfl
    | true =>
      rw [process_step_succ_ask invoke stdin name n messages cursor hflag, Option.isSome_map',
        ih ((messages ++ (invoke messages).newItems) ++ [userMsg (stdin cursor)]) (cursor + 1)]
      constructor
      · rintro ⟨k, hk, hf⟩
        exact ⟨k + 1, Nat.succ_lt_succ hk, hf⟩
      · rintro ⟨k, hk, hf⟩
        cases k with
        | zero =>
          have hx : HasClarification.any_user_input_required (invoke messages).finalOutput = false := hf
          rw [hflag] at hx
          exact Bool.noConfusion hx
        | succ j =>
          exact ⟨j, Nat.lt_of_succ_lt_succ hk, hf⟩

/-! ## Concrete oracle environments used as witnesses -/

def constAnalysisOutput : AllRequirementsAnalysis :=
  { all_requirements_analysis := [], can_satisfy_all_requirements := true,
    any_user_input_required := false, question_to_user := none }

def constPlannerOutput : AllPlannerSteps :=
  { all_planner_steps := [], can_satisfy_all_requirements := true,
    any_user_input_required := false, question_to_user := none }

def constExecutorOutput : AllExecutorSteps :=
  { all_executor_steps := [], can_satisfy_all_requirements := true,
    any_user_input_required := false, question_to_user := none }

/-- A QC output reporting unmet requirements but asking no question. -/
def constQCOutput : AllQCSteps :=
  { all_qc_steps := [], all_requirements_satisfied := false,
    any_user_input_required := false, question_to_user := none }

/-- A QC output that always asks the user for more input. -/
def constAskOutput : AllQCSteps :=
  { all_qc_steps := [], all_requirements_satisfied := false,
    any_user_input_required := true, question_to_user := some "Please provide more details." }

def constEnv : Env :=
  { analyzer := fun _ => AgentResponse.mk [] constAnalysisOutput
    planner := fun _ => AgentResponse.mk [] constPlannerOutput
    executor := fun _ => AgentResponse.mk [] constExecutorOutput
    qc := fun _ => AgentResponse.mk [] constQCOutput
    stdin := fun _ => "" }

/-- The pipeline run produced by main on constEnv with fuel 1. -/
def run0 : PipelineRun :=
  { stageOrder := [StageId.analysis, StageId.planning, StageId.execution, StageId.qualityCheck]
    analysisInput := [userMsg ANALYZER_PROMPT]
    analysisResult :=
      { finalOutput := constAnalysisOutput, toInputList := [userMsg ANALYZER_PROMPT],
        lastAgentName := analyzer_agent.name, printedQuestions := [] }
    planningInput := [userMsg ANALYZER_PROMPT, userMsg PLANNER_PROMPT]
    planningResult :=
      { finalOutput := constPlannerOutput,
        toInputList := [userMsg ANALYZER_PROMPT, userMsg PLANNER_PROMPT],
        lastAgentName := planner_agent.name, printedQuestions := [] }
    executionInput := [userMsg ANALYZER_PROMPT, userMsg PLANNER_PROMPT, userMsg EXECUTOR_PROMPT]
    executionResult :=
      { finalOutput := constExecutorOutput,
        toInputList := [userMsg ANALYZER_PROMPT, userMsg PLANNER_PROMPT, userMsg EXECUTOR_PROMPT],
        lastAgentName := executor_agent.name, printedQuestions := [] }
    qcInput :=
      [userMsg ANALYZER_PROMPT, userMsg PLANNER_PROMPT, userMsg EXECUTOR_PROMPT, userMsg QC_PROMPT]
    qcResult :=
      { finalOutput := constQCOutput,
        toInputList :=
          [userMsg ANALYZER_PROMPT, userMsg PLANNER_PROMPT, userMsg EXECUTOR_PROMPT,
            userMsg QC_PROMPT],
        lastAgentName := qc_agent.name, printedQuestions := [] }
    log := ["----- STARTING ANALYSIS -----", "----- STARTING PLANNING -----",
            "----- STARTING EXECUTION -----", "----- STARTING QUALITY CHECK -----",
            WORKFLOW_COMPLETE_BANNER] }

/-! ## Claim theorems: interactive step runner and pipeline orchestrator -/

/-- The orchestration contract asserted by C2: the four stages are invoked in
the fixed order exactly once each; stage 1 starts from the single Analysis
prompt message; each later stage starts from the previous stage's finalized
transcript plus exactly one stage prompt appended as a user message, so each
prior transcript is a prefix of the next stage's input. -/
def PipelineContract (env : Env) (fuel : Nat) (run : PipelineRun) : Prop :=
  ∃ u1 u2 u3 u4,
    run.analysisInput = [userMsg ANALYZER_PROMPT] ∧
    process_step env.analyzer env.stdin analyzer_agent.name fuel run.analysisInput 0 =
      some (run.analysisResult, u1) ∧
    run.planningInput = run.analysisResult.toInputList ++ [userMsg PLANNER_PROMPT] ∧
    process_step env.planner env.stdin planner_agent.name fuel run.planningInput u1 =
      some (run.planningResult, u2) ∧
    run.executionInput = run.planningResult.toInputList ++ [userMsg EXECUTOR_PROMPT] ∧
    process_step env.executor env.stdin executor_agent.name fuel run.executionInput u2 =
      some (run.executionResult, u3) ∧
    run.qcInput = run.executionResult.toInputList ++ [userMsg QC_PROMPT] ∧
    process_step env.qc env.stdin qc_agent.name fuel run.qcInput u3 =
      some (run.qcResult, u4) ∧
    run.stageOrder = [StageId.analysis, StageId.planning, StageId.execution, StageId.qualityCheck] ∧
    run.analysisResult.toInputList <+: run.planningInput ∧
    run.planningResult.toInputList <+: run.executionInput ∧
    run.executionResult.toInputList <+: run.qcInput

/-- C2: every terminating run of main satisfies the orchestration contract:
fixed stage order Analysis, Planning, Execution, QC, one invocation each,
transcripts chained by appending one stage prompt, prior transcripts being
prefixes of later stage inputs. -/
theorem C2_stage_order_and_transcripts (env : Env) (fuel : Nat) (run : PipelineRun)
    (h : main env fuel = some run) : PipelineContract env fuel run := by
  simp only [main, Option.bind_eq_some, Option.map_eq_some'] at h
  obtain ⟨s1, h1, s2, h2, s3, h3, s4, h4, hrun⟩ := h
  subst hrun
  exact ⟨s1.2, s2.2, s3.2, s4.2, rfl, h1, rfl, h2, rfl, h3, rfl, h4, rfl,
    ⟨[userMsg PLANNER_PROMPT], rfl⟩, ⟨[userMsg EXECUTOR_PROMPT], rfl⟩,
    ⟨[userMsg QC_PROMPT], rfl⟩⟩

theorem C2_stage_order_and_transcripts_witness : PipelineContract constEnv 1 run0 :=
  C2_stage_order_and_transcripts constEnv 1 run0 rfl

/-- C3: one round of the interactive step runner: if the invocation's output
asks for user input, the runner prints the question attributed to the role's
name, reads exactly one stdin line, appends exactly one user message with
that input to the invocation's updated transcript, and re-invokes the same
role on it; if the flag is false it returns that invocation's structured
output and updated transcript without reading input. -/
theorem C3_clarification_round {α : Type} [HasClarification α]
    (invoke : Transcript → AgentResponse α) (stdin : Nat → String) (name : String)
    (fuel : Nat) (messages : Transcript) (cursor : Nat) :
    (HasClarification.any_user_input_required (invoke messages).finalOutput = true →
      process_step invoke stdin name (fuel + 1) messages cursor =
        Option.map
          (fun rc =>
            ({ rc.1 with
               printedQuestions :=
                 questionLine name (HasClarification.question_to_user (invoke messages).finalOutput)
                   :: rc.1.printedQuestions }, rc.2))
          (process_step invoke stdin name fuel
            ((messages ++ (invoke messages).newItems) ++ [userMsg (stdin cursor)]) (cursor + 1))) ∧
    (HasClarification.any_user_input_required (invoke messages).finalOutput = false →
      process_step invoke stdin name (fuel + 1) messages cursor =
        some ({ finalOutput := (invoke messages).finalOutput,
                toInputList := messages ++ (invoke messages).newItems,
                lastAgentName := name,
                printedQuestions := [] }, cursor)) :=
  ⟨process_step_succ_ask invoke stdin name fuel messages cursor,
   process_step_succ_done invoke stdin name fuel messages cursor⟩

theorem C3_clarification_round_witness :
    process_step (fun _ => AgentResponse.mk [] constQCOutput) (fun _ => "") qc_agent.name
        1 [] 0 =
      some ({ finalOutput := constQCOutput, toInputList := [], lastAgentName := qc_agent.name,
              printedQuestions := [] }, 0) :=
  (C3_clarification_round (fun _ => AgentResponse.mk [] constQCOutput) (fun _ => "")
    qc_agent.name 0 [] 0).2 rfl

/-- C6: each of the four stage output containers carries the single
clarification pair (required flag plus optional question), exposed through
the shared HasClarification interface as exactly those two fields; and the
interactive step runner never returns a stage result whose latest structured
output still has any_user_input_required true. -/
theorem C6_clarification_invariant {α : Type} [HasClarification α]
    (invoke : Transcript → AgentResponse α) (stdin : Nat → String) (name : String) :
    (∀ x : AllRequirementsAnalysis,
      HasClarification.any_user_input_required x = x.any_user_input_required ∧
      HasClarification.question_to_user x = x.question_to_user) ∧
    (∀ x : AllPlannerSteps,
      HasClarification.any_user_input_required x = x.any_user_input_required ∧
      HasClarification.question_to_user x = x.question_to_user) ∧
    (∀ x : AllExecutorSteps,
      HasClarification.any_user_input_required x = x.any_user_input_required ∧
      HasClarification.question_to_user x = x.question_to_user) ∧
    (∀ x : AllQCSteps,
      HasClarification.any_user_input_required x = x.any_user_input_required ∧
      HasClarification.question_to_user x = x.question_to_user) ∧
    (∀ (fuel : Nat) (messages : Transcript) (cursor : Nat) (r : RunResult α) (c : Nat),
      process_step invoke stdin name fuel messages cursor = some (r, c) →
      HasClarification.any_user_input_required r.finalOutput = false) :=
  ⟨fun _ => ⟨rfl, rfl⟩, fun _ => ⟨rfl, rfl⟩, fun _ => ⟨rfl, rfl⟩, fun _ => ⟨rfl, rfl⟩,
    process_step_flag_false invoke stdin name⟩

theorem C6_clarification_invariant_witness :
    HasClarification.any_user_input_required
      (({ finalOutput := constQCOutput, toInputList := [], lastAgentName := qc_agent.name,
          printedQuestions := [] } : RunResult AllQCSteps)).finalOutput = false :=
  (C6_clarification_invariant (fun _ => AgentResponse.mk [] constQCOutput) (fun _ => "")
      qc_agent.name).2.2.2.2 1 [] 0
    { finalOutput := constQCOutput, toInputList := [], lastAgentName := qc_agent.name,
      printedQuestions := [] } 0 rfl

/-- C7: whenever main terminates, qc is the last stage and it occurs exactly
once (no re-planning or re-execution loop exists across stages), and the
workflow-complete banner is reported last, with no hypothesis about the QC
output: the run halts after QC even when all_requirements_satisfied is
false. -/
theorem C7_halt_after_qc (env : Env) (fuel : Nat) (run : PipelineRun)
    (h : main env fuel = some run) :
    run.stageOrder =
      [StageId.analysis, StageId.planning, StageId.execution, StageId.qualityCheck] ∧
    run.stageOrder.count StageId.qualityCheck = 1 ∧
    run.stageOrder.getLast? = some StageId.qualityCheck ∧
    run.log.getLast? = some WORKFLOW_COMPLETE_BANNER := by
  simp only [main, Option.bind_eq_some, Option.map_eq_some'] at h
  obtain ⟨s1, h1, s2, h2, s3, h3, s4, h4, hrun⟩ := h
  subst hrun
  exact ⟨rfl, rfl, rfl, rfl⟩

theorem C7_halt_after_qc_witness :
    run0.qcResult.finalOutput.all_requirements_satisfied = false ∧
    run0.stageOrder.getLast? = some StageId.qualityCheck ∧
    run0.log.getLast? = some WORKFLOW_COMPLETE_BANNER :=
  ⟨rfl, (C7_halt_after_qc constEnv 1 run0 rfl).2.2.1,
    (C7_halt_after_qc constEnv 1 run0 rfl).2.2.2⟩

/-- C8: the clarification loop of the interactive step runner has no
iteration bound: it terminates for some fuel exactly when some clarification
round's invocation clears the any_user_input_required flag, and if the role
asks for clarification at every round the loop never terminates for any
fuel. -/
theorem C8_unbounded_clarification_loop {α : Type} [HasClarification α]
    (invoke : Transcript → AgentResponse α) (stdin : Nat → String) (name : String)
    (messages : Transcript) (cursor : Nat) :
    ((∃ fuel, (process_step invoke stdin name fuel messages cursor).isSome = true) ↔
      ∃ k, asksAt invoke stdin k (messages, cursor) = false) ∧
    ((∀ k, asksAt invoke stdin k (messages, cursor) = true) →
      ∀ fuel, process_step invoke stdin name fuel messages cursor = none) := by
  constructor
  · constructor
    · rintro ⟨fuel, hs⟩
      obtain ⟨k, _, hk⟩ := (process_step_isSome_iff invoke stdin name fuel messages cursor).mp hs
      exact ⟨k, hk⟩
    · rintro ⟨k, hk⟩
      exact ⟨k + 1, (process_step_isSome_iff invoke stdin name (k + 1) messages cursor).mpr
        ⟨k, Nat.lt_succ_self k, hk⟩⟩
  · intro hall fuel
    cases hps : process_step invoke stdin name fuel messages cursor with
    | none => rfl
    | some v =>
      have hs : (process_step invoke stdin name fuel messages cursor).isSome = true := by
        rw [hps]; rfl
      obtain ⟨k, _, hk⟩ := (process_step_isSome_iff invoke stdin name fuel messages cursor).mp hs
      rw [hall k] at hk
      exact Bool.noConfusion hk

theorem C8_unbounded_clarification_loop_witness :
    process_step (fun _ => AgentResponse.mk [] constAskOutput) (fun _ => "") qc_agent.name
      3 [] 0 = none :=
  (C8_unbounded_clarification_loop (fun _ => AgentResponse.mk [] constAskOutput) (fun _ => "")
    qc_agent.name [] 0).2 (fun _ => rfl) 3

end MediaAgent
